import Mathlib

set_option maxRecDepth 8192

/-!
Shallow embedding of the core of the clojurium tree-walking interpreter:
the Pratt parser of src/parser.rs, the runtime object model of
src/evaluation/object.rs, the built-in function registry of src/core/funcs.rs,
and the evaluator of src/evaluation/evaluator.rs.

The lexer is an external collaborator: per the lexer contract it hands the
parser a stream of tokens and emits EOF tokens indefinitely after end of
input.  We model the not-yet-consumed part of that stream as a finite list of
tokens, padded with EOF tokens forever once exhausted.

Rust functions that can panic are embedded with an explicit `panicked` result,
and the source's unbounded loops are embedded with a fuel parameter: a result
of `outOfFuel` for every fuel value models non-termination of the loop.
-/

-- ===== token.rs (module absent from src/; constants modelled from the spec) =====

/-- TokenType is a string alias, as in the source (`pub type TokenType = String`). -/
abbrev TokenType := String

/-- Modelled from the spec: the token kind constants of the token.rs module,
which is not under src/.  The spec lists the stable identifiers (IDENT, INT,
ASSIGN (=), PLUS (+), ...) and the parser tests pin the operator kinds to
their lexemes: the expected message "expected next token to be =, got INT
instead" forces ASSIGN = "=" and INT = "INT". -/
def token.IDENT : TokenType := "IDENT"

def token.INT : TokenType := "INT"

def token.ASSIGN : TokenType := "="

def token.PLUS : TokenType := "+"

def token.MINUS : TokenType := "-"

def token.BANG : TokenType := "!"

def token.ASTERISK : TokenType := "*"

def token.SLASH : TokenType := "/"

def token.LT : TokenType := "<"

def token.GT : TokenType := ">"

def token.EQ : TokenType := "=="

def token.NOT_EQ : TokenType := "!="

def token.SEMICOLON : TokenType := ";"

def token.LPAREN : TokenType := "("

def token.RPAREN : TokenType := ")"

def token.LBRACKET : TokenType := "["

def token.LET : TokenType := "LET"

def token.RETURN : TokenType := "RETURN"

def token.TRUE : TokenType := "TRUE"

def token.FALSE : TokenType := "FALSE"

def token.EOF : TokenType := "EOF"

/-- Modelled from the spec: the precedence levels of token.rs (u8 constants in
the source, absent from src/).  The spec fixes only the strict ascending chain
LOWEST < EQUALS < LESSGREATER < SUM < PRODUCT < PREFIX < CALL < INDEX, which
any strictly increasing assignment realises; we use 0..7.  The source constant
named PREFIX is rendered here as PREFIX_LEVEL. -/
def token.LOWEST : Nat := 0

def token.EQUALS : Nat := 1

def token.LESSGREATER : Nat := 2

def token.SUM : Nat := 3

def token.PRODUCT : Nat := 4

def token.PREFIX_LEVEL : Nat := 5

def token.CALL : Nat := 6

def token.INDEX : Nat := 7

/-- Token as in the source: a kind tag plus the literal lexeme.  Positional
information is dropped; nothing under verification reads it. -/
structure Token where
  token_type : TokenType
  literal : String

/-- The token the modelled lexer produces after end of input, per the lexer
contract (EOF tokens indefinitely). -/
def eofToken : Token := ⟨token.EOF, ""⟩

-- ===== AST (token.rs / ast.rs types, reconstructed from their use sites in src/) =====

/-- Identifier node: `token::Identifier { token, value }` as used by parser.rs. -/
structure Identifier where
  token : Token
  value : String

/-- Expression nodes of token.rs, reconstructed from the exhaustive match in
evaluator.rs (which names exactly these eight variants) and the constructor
sites in parser.rs.  The payloads of IfExpression, FunctionLiteral and
CallExpression live in the absent token.rs and are trimmed to the token tag:
parser.rs registers no prefix rule for IF or FN in this snapshot, so it never
constructs them, and evaluator.rs panics on them without touching the payload. -/
inductive Expression where
  | Identifier (token : Token) (value : String)
  | IntegerLiteral (token : Token) (value : Int)
  | PrefixExpression (token : Token) (operator : String) (right : Expression)
  | InfixExpression (token : Token) (left : Expression) (operator : String) (right : Expression)
  | Boolean (token : Token) (value : Bool)
  | IfExpression (token : Token)
  | FunctionLiteral (token : Token)
  | CallExpression (token : Token)

/-- Let statement as parser.rs builds it: note the `value` field is a String
(the source stores the placeholder "dumb" there, not an expression). -/
structure LetStatement where
  token : Token
  name : Identifier
  value : String

/-- Return statement as parser.rs builds it: `return_value` is likewise a
placeholder String in the source. -/
structure ReturnStatement where
  token : Token
  return_value : String

/-- Expression statement: a token plus the parsed expression. -/
structure ExpressionStatement where
  token : Token
  expression : Expression

/-- The Statements sum of token.rs, reconstructed from its use in parser.rs
and evaluator.rs. -/
inductive Statements where
  | LetStatement (s : LetStatement)
  | ReturnStatement (s : ReturnStatement)
  | ExpressionStatement (s : ExpressionStatement)

/-- ast::Program: the ordered list of top-level statements. -/
structure Program where
  statements : List Statements

-- ===== parser.rs =====

/-- PRECEDENCES: the lazy_static priority table of parser.rs, lines 17-31,
embedded as an association list (the HashMap has these eight distinct keys
and no others; in particular no entry for LPAREN or LBRACKET). -/
def PRECEDENCES : List (TokenType × Nat) :=
  [(token.EQ, token.EQUALS),
   (token.NOT_EQ, token.EQUALS),
   (token.LT, token.LESSGREATER),
   (token.GT, token.LESSGREATER),
   (token.PLUS, token.SUM),
   (token.MINUS, token.SUM),
   (token.SLASH, token.PRODUCT),
   (token.ASTERISK, token.PRODUCT)]

/-- precedence_by_token_type of parser.rs: table lookup, defaulting to LOWEST. -/
def precedence_by_token_type (token_type : TokenType) : Nat :=
  match PRECEDENCES.lookup token_type with
  | some precedence => precedence
  | none => token.LOWEST

/-- The set of token kinds with a registered prefix parse rule
(LambdaParsers::register_parsers of parser.rs registers exactly these seven). -/
def hasPrefixRule (tt : TokenType) : Bool :=
  tt == token.IDENT || tt == token.INT || tt == token.BANG || tt == token.MINUS ||
  tt == token.TRUE || tt == token.FALSE || tt == token.LPAREN

/-- The set of token kinds with a registered infix parse rule
(register_parsers registers exactly these eight, all parse_infix_expression). -/
def hasInfixRule (tt : TokenType) : Bool :=
  tt == token.PLUS || tt == token.MINUS || tt == token.SLASH || tt == token.ASTERISK ||
  tt == token.EQ || tt == token.NOT_EQ || tt == token.LT || tt == token.GT

/-- Parser state: the not-yet-consumed lexer output, the current and peek
tokens, and the accumulated error messages (struct Parser of parser.rs). -/
structure PState where
  lexer : List Token
  current_token : Token
  peek_token : Token
  errors : List String

/-- Parser::next_token: current becomes peek, peek becomes the lexer's next
token (an EOF token forever once the stream is exhausted). -/
def nextToken (st : PState) : PState :=
  { lexer := st.lexer.tail
    current_token := st.peek_token
    peek_token := st.lexer.headD eofToken
    errors := st.errors }

/-- Parser::new: prime current and peek by reading two tokens. -/
def Parser.new (tokens : List Token) : PState :=
  { lexer := tokens.tail.tail
    current_token := tokens.headD eofToken
    peek_token := tokens.tail.headD eofToken
    errors := [] }

/-- Parser::peek_error: push "expected next token to be X, got Y instead". -/
def peek_error (st : PState) (tok : TokenType) : PState :=
  { st with errors := st.errors ++
      ["expected next token to be " ++ tok ++ ", got " ++ st.peek_token.token_type ++ " instead"] }

/-- Result of running a parser function: a value plus the updated state, a
Rust `None` return (with the updated state, errors included), a Rust panic
(which unwinds, discarding the parser), or fuel exhaustion, which models a
loop in the source that has not terminated within the given fuel. -/
inductive PRes (α : Type) where
  | ok : α → PState → PRes α
  | nothing : PState → PRes α
  | panicked : String → PRes α
  | outOfFuel : PRes α

/-- Models the external Rust standard library call `literal.parse::<i32>()`:
an optional sign followed by at least one decimal digit, rejecting values
outside the i32 range.  digitVal? reads one decimal digit. -/
def digitVal? (c : Char) : Option Nat :=
  if c = '0' then some 0 else if c = '1' then some 1 else if c = '2' then some 2
  else if c = '3' then some 3 else if c = '4' then some 4 else if c = '5' then some 5
  else if c = '6' then some 6 else if c = '7' then some 7 else if c = '8' then some 8
  else if c = '9' then some 9 else none

/-- Accumulate decimal digits left to right; fail on a non-digit. -/
def digitsAcc : List Char → Nat → Option Nat
  | [], acc => some acc
  | c :: cs, acc =>
    match digitVal? c with
    | some d => digitsAcc cs (acc * 10 + d)
    | none => none

/-- A non-empty all-digit character list, as a natural number. -/
def digitsToNat? : List Char → Option Nat
  | [] => none
  | l => digitsAcc l 0

/-- Modelled from the spec: Rust `str::parse::<i32>` (external standard
library).  Returns none exactly when Rust would return Err: empty input, a
non-digit character, or a value outside the 32-bit signed range. -/
def parse_i32 (s : String) : Option Int :=
  match s.data with
  | '+' :: rest =>
    match digitsToNat? rest with
    | some n => if n ≤ 2147483647 then some (n : Int) else none
    | none => none
  | '-' :: rest =>
    match digitsToNat? rest with
    | some n => if n ≤ 2147483648 then some (-(n : Int)) else none
    | none => none
  | l =>
    match digitsToNat? l with
    | some n => if n ≤ 2147483647 then some (n : Int) else none
    | none => none

/-- LambdaParsers::parse_int_literal: parse the current literal as i32,
panicking on failure (`.unwrap()`); the Rust panic text is abbreviated. -/
def parse_int_literal (st : PState) : PRes Expression :=
  match parse_i32 st.current_token.literal with
  | some integer => .ok (.IntegerLiteral st.current_token integer) st
  | none => .panicked "called Result::unwrap on an Err value: ParseIntError"

/-- LambdaParsers::parse_boolean: a Boolean node, true iff the current token
kind is TRUE. -/
def parse_boolean (st : PState) : PRes Expression :=
  .ok (.Boolean st.current_token (st.current_token.token_type == token.TRUE)) st

/-- Mode of the combined Pratt recursion: `expr prec` is Parser::parse_expression
called with the given precedence; `loop prec left` is its while loop with the
current left expression.  The recursive prefix rules (parse_prefix_expression,
parse_grouped_expressions) and parse_infix_expression are inlined in
parseExprCore so that the whole mutually recursive group is one structural
recursion on fuel. -/
inductive PMode where
  | expr (prec : Nat)
  | loop (prec : Nat) (left : Expression)

/-- Parser::parse_expression of parser.rs (lines 432-470) together with the
lambda parsers it dispatches to.  In `expr` mode: look up a prefix rule for
the current token kind; if absent, record "no prefix parser found for K token"
and return None; otherwise run the rule (IDENT and INT and TRUE/FALSE build
leaves; BANG/MINUS is parse_prefix_expression; LPAREN is
parse_grouped_expressions, which panics when the closing RPAREN is missing)
and enter the while loop.  In `loop` mode: while the peek token is not a
semicolon and the given precedence is strictly below the peek token's
precedence, consume the operator and run parse_infix_expression, which parses
the right operand at the operator's own precedence. -/
def parseExprCore : Nat → PMode → PState → PRes Expression
  | 0, _, _ => .outOfFuel
  | fuel+1, .expr prec, st =>
    if hasPrefixRule st.current_token.token_type then
      let res : PRes Expression :=
        if st.current_token.token_type == token.INT then
          parse_int_literal st
        else if st.current_token.token_type == token.TRUE ||
                st.current_token.token_type == token.FALSE then
          parse_boolean st
        else if st.current_token.token_type == token.BANG ||
                st.current_token.token_type == token.MINUS then
          -- parse_prefix_expression: capture operator, advance, parse right at PREFIX level
          let tok := st.current_token
          let operator := st.current_token.literal
          let st1 := nextToken st
          match parseExprCore fuel (.expr token.PREFIX_LEVEL) st1 with
          | .ok right st2 => .ok (.PrefixExpression tok operator right) st2
          | .nothing st2 =>
            .panicked ("Can't parse parser.current_token = " ++ st2.current_token.literal)
          | .panicked m => .panicked m
          | .outOfFuel => .outOfFuel
        else if st.current_token.token_type == token.LPAREN then
          -- parse_grouped_expressions: advance, parse at LOWEST, require RPAREN or panic
          let st1 := nextToken st
          match parseExprCore fuel (.expr token.LOWEST) st1 with
          | .ok expression st2 =>
            if st2.peek_token.token_type != token.RPAREN then
              .panicked ("I've expected `)`, but got " ++ st2.peek_token.token_type)
            else
              .ok expression (nextToken st2)
          | .nothing st2 =>
            -- the source panics with the Debug rendering of the current token
            .panicked ("Cannot find parser for " ++ st2.current_token.token_type)
          | .panicked m => .panicked m
          | .outOfFuel => .outOfFuel
        else
          -- IDENT: build an Identifier from the current token
          .ok (.Identifier st.current_token st.current_token.literal) st
      match res with
      | .ok left st1 => parseExprCore fuel (.loop prec left) st1
      | other => other
    else
      .nothing { st with errors := st.errors ++
          ["no prefix parser found for " ++ st.current_token.token_type ++ " token"] }
  | fuel+1, .loop prec left, st =>
    if st.peek_token.token_type == token.SEMICOLON then
      .ok left st
    else if prec < precedence_by_token_type st.peek_token.token_type then
      let hasInf := hasInfixRule st.peek_token.token_type
      let st1 := nextToken st
      if hasInf then
        -- parse_infix_expression: capture operator and its precedence, advance,
        -- parse the right operand at that precedence
        let tok := st1.current_token
        let operator := tok.literal
        let opPrec := precedence_by_token_type tok.token_type
        let st2 := nextToken st1
        match parseExprCore fuel (.expr opPrec) st2 with
        | .ok right st3 =>
          parseExprCore fuel (.loop prec (.InfixExpression tok left operator right)) st3
        | .nothing _ =>
          .panicked ("Cannot find infix parser for " ++ tok.token_type)
        | .panicked m => .panicked m
        | .outOfFuel => .outOfFuel
      else
        .panicked ("Cannot find infix function for " ++ st1.peek_token.token_type)
    else
      .ok left st

/-- Parser::parse_expression: entry point of the Pratt core. -/
def parse_expression (fuel : Nat) (st : PState) (precedence : Nat) : PRes Expression :=
  parseExprCore fuel (.expr precedence) st

/-- The semicolon scan of parse_let_statement (parser.rs lines 374-380):
`while !(current.token_type == SEMICOLON) next_token()`.  Returns the state at
the semicolon, or none when the fuel runs out; since the exhausted lexer
yields EOF tokens forever, none for every fuel is exactly the infinite loop
the source comment warns about. -/
def scanToSemicolonCur : Nat → PState → Option PState
  | 0, _ => none
  | fuel+1, st =>
    if st.current_token.token_type == token.SEMICOLON then some st
    else scanToSemicolonCur fuel (nextToken st)

/-- The semicolon scan of parse_return_statement (parser.rs lines 403-405):
`while !(peek.token_type == SEMICOLON) next_token()`. -/
def scanToSemicolonPeek : Nat → PState → Option PState
  | 0, _ => none
  | fuel+1, st =>
    if st.peek_token.token_type == token.SEMICOLON then some st
    else scanToSemicolonPeek fuel (nextToken st)

/-- Parser::parse_let_statement (parser.rs lines 352-393): expect IDENT then
ASSIGN (recording a peek_error and returning None otherwise), then skip
tokens until the current token is a semicolon, and yield a LetStatement whose
value field is the placeholder string "dumb": the right-hand side expression
is never parsed. -/
def parse_let_statement (fuel : Nat) (st : PState) : PRes LetStatement :=
  let tok := st.current_token
  if st.peek_token.token_type == token.IDENT then
    let st1 := nextToken st
    let name : Identifier := ⟨st1.current_token, st1.current_token.literal⟩
    if st1.peek_token.token_type == token.ASSIGN then
      let st2 := nextToken st1
      match scanToSemicolonCur fuel st2 with
      | some st3 => .ok ⟨tok, name, "dumb"⟩ st3
      | none => .outOfFuel
    else
      .nothing (peek_error st1 token.ASSIGN)
  else
    .nothing (peek_error st token.IDENT)

/-- Parser::parse_return_statement (parser.rs lines 395-411): build the
statement with the placeholder return_value "dumb", advance, skip until the
peek token is a semicolon, advance once more, and yield the statement. -/
def parse_return_statement (fuel : Nat) (st : PState) : PRes ReturnStatement :=
  let statement : ReturnStatement := ⟨st.current_token, "dumb"⟩
  let st1 := nextToken st
  match scanToSemicolonPeek fuel st1 with
  | some st2 => .ok statement (nextToken st2)
  | none => .outOfFuel

/-- Parser::parse_expression_statement (parser.rs lines 413-430): parse an
expression at LOWEST; when parse_expression returns None the source panics
with "I don't know how to parse `...`"; on success, skip an optional
semicolon. -/
def parse_expression_statement (fuel : Nat) (st : PState) : PRes ExpressionStatement :=
  match parse_expression fuel st token.LOWEST with
  | .ok expression st1 =>
    let statement : ExpressionStatement := ⟨st.current_token, expression⟩
    if st1.peek_token.token_type == token.SEMICOLON then
      .ok statement (nextToken st1)
    else
      .ok statement st1
  | .nothing st1 =>
    .panicked ("I don't know how to parse `" ++ st1.current_token.literal ++ "`")
  | .panicked m => .panicked m
  | .outOfFuel => .outOfFuel

/-- Parser::parse_statement: dispatch on the current token kind. -/
def parse_statement (fuel : Nat) (st : PState) : PRes Statements :=
  if st.current_token.token_type == token.LET then
    match parse_let_statement fuel st with
    | .ok s st1 => .ok (.LetStatement s) st1
    | .nothing st1 => .nothing st1
    | .panicked m => .panicked m
    | .outOfFuel => .outOfFuel
  else if st.current_token.token_type == token.RETURN then
    match parse_return_statement fuel st with
    | .ok s st1 => .ok (.ReturnStatement s) st1
    | .nothing st1 => .nothing st1
    | .panicked m => .panicked m
    | .outOfFuel => .outOfFuel
  else
    match parse_expression_statement fuel st with
    | .ok s st1 => .ok (.ExpressionStatement s) st1
    | .nothing st1 => .nothing st1
    | .panicked m => .panicked m
    | .outOfFuel => .outOfFuel

/-- The while loop of Parser::parse_program: until the current token is EOF,
parse one statement, push it when Some, ignore it when None, and advance. -/
def parse_program_loop : Nat → PState → List Statements → PRes Program
  | 0, _, _ => .outOfFuel
  | fuel+1, st, acc =>
    if st.current_token.token_type == token.EOF then
      .ok ⟨acc⟩ st
    else
      match parse_statement fuel st with
      | .ok stmt st1 => parse_program_loop fuel (nextToken st1) (acc ++ [stmt])
      | .nothing st1 => parse_program_loop fuel (nextToken st1) acc
      | .panicked m => .panicked m
      | .outOfFuel => .outOfFuel

/-- Parser::parse_program (parser.rs lines 317-330). -/
def parse_program (fuel : Nat) (st : PState) : PRes Program :=
  parse_program_loop fuel st []

-- ===== evaluation/object.rs =====

/-- Runtime object model of object.rs.  The Function variant's `env` field
(an Environment from the absent environment.rs) is omitted: no code under
verification constructs or inspects it, and the claims about Objects are
independent of it.  CoreFunc carries the function name and the u8 arity. -/
inductive Object where
  | Integer (value : Int)
  | Stringl (value : String)
  | Array (elements : List Object)
  | Boolean (value : Bool)
  | Nil
  | ReturnValue (value : Object)
  | Error (message : String)
  | Function (parameters : Option (List Identifier)) (body : List Statements)
  | CoreFunc (function_name : String) (arity : Nat)

/-- Object::same_tag of object.rs (lines 29-43), verbatim: pairwise matches
for eight of the nine variants; the CoreFunc/CoreFunc pair is missing, so it
falls into the catch-all false arm. -/
def same_tag (a b : Object) : Bool :=
  match a, b with
  | .Integer _, .Integer _ => true
  | .Stringl _, .Stringl _ => true
  | .Array _, .Array _ => true
  | .Boolean _, .Boolean _ => true
  | .Nil, .Nil => true
  | .ReturnValue _, .ReturnValue _ => true
  | .Error _, .Error _ => true
  | .Function _ _, .Function _ _ => true
  | _, _ => false

/-- The variant tag of an Object; vocabulary for stating same_tag's behaviour. -/
inductive ObjTag where
  | integer
  | stringl
  | array
  | boolean
  | nil
  | returnValue
  | error
  | function
  | coreFunc
  deriving DecidableEq, BEq

/-- Tag of each Object variant. -/
def Object.tag : Object → ObjTag
  | .Integer _ => .integer
  | .Stringl _ => .stringl
  | .Array _ => .array
  | .Boolean _ => .boolean
  | .Nil => .nil
  | .ReturnValue _ => .returnValue
  | .Error _ => .error
  | .Function _ _ => .function
  | .CoreFunc _ _ => .coreFunc

/-- ObjectT::object_type: the stable type name of each variant. -/
def object_type : Object → String
  | .Integer _ => "INTEGER"
  | .Stringl _ => "STRING"
  | .Array _ => "ARRAY"
  | .Boolean _ => "BOOLEAN"
  | .Nil => "NULL"
  | .ReturnValue _ => "RETURN_VALUE"
  | .Error _ => "ERROR"
  | .Function _ _ => "FUNCTION"
  | .CoreFunc _ _ => "CORE_FUNCTION"

/-- Whether an Object is the Array variant. -/
def isArrayObject : Object → Bool
  | .Array _ => true
  | _ => false

/-- Modelled from the spec: evaluator::new_error, referenced by funcs.rs but
not present in src/evaluation/evaluator.rs; the spec specifies runtime errors
as the Error variant carrying the message. -/
def new_error (message : String) : Object :=
  .Error message

/-- Modelled from the spec: evaluator::NIL, referenced by funcs.rs but not
present in src/evaluation/evaluator.rs; the spec's canonical nil singleton. -/
def NIL : Object := Object.Nil

/-- The value of `n as i32` for a Rust usize n: truncate to 32 bits, signed. -/
def i32ofNat (n : Nat) : Int :=
  ((n : Int) + 2147483648) % 4294967296 - 2147483648

-- ===== core/funcs.rs =====

/-- Result of running an evaluator-side Rust function: an Object, or a panic. -/
inductive ERes where
  | ok : Object → ERes
  | panicked : String → ERes

/-- CORE_REGISTRY of funcs.rs: built-in name to u8 arity, as an association
list (the HashMap has exactly these five distinct keys). -/
def CORE_REGISTRY : List (String × Nat) :=
  [("length", 1), ("first", 1), ("last", 1), ("rest", 1), ("push", 2)]

/-- funcs::length_: byte length of a string, element count of an array (both
cast to i32), Error otherwise. -/
def length_ (str : Object) : Object :=
  match str with
  | .Stringl s => .Integer (i32ofNat s.utf8ByteSize)
  | .Array elements => .Integer (i32ofNat elements.length)
  | other => new_error ("argument to `length` not supported, got " ++ object_type other)

/-- funcs::first_: first element of an array (NIL when empty), Error otherwise. -/
def first_ (arr : Object) : Object :=
  match arr with
  | .Array elements =>
    match elements with
    | e :: _ => e
    | [] => NIL
  | other => new_error ("argument to `first` must be array, got " ++ object_type other)

/-- funcs::last_: last element of an array (NIL when empty), Error otherwise. -/
def last_ (arr : Object) : Object :=
  match arr with
  | .Array elements =>
    match elements.getLast? with
    | some e => e
    | none => NIL
  | other => new_error ("argument to `last` must be array, got " ++ object_type other)

/-- funcs::rest_: all but the first element of an array, Error otherwise. -/
def rest_ (arr : Object) : Object :=
  match arr with
  | .Array elements => .Array (elements.drop 1)
  | other => new_error ("argument to `rest` must be array, got " ++ object_type other)

/-- funcs::push_: a new array with the element appended (the Rust source
clones the input array, so the argument is not mutated), Error otherwise. -/
def push_ (arr : Object) (elem : Object) : Object :=
  match arr with
  | .Array elements => .Array (elements ++ [elem])
  | other => new_error ("argument to `push` must be array, got " ++ object_type other)

/-- funcs::call (funcs.rs lines 28-53): a match on the name whose arms are
guarded by `Some(&(args.len() as u8)) == CORE_REGISTRY.get(&name)`; the usize
length is truncated to u8 by the cast, embedded as reduction mod 256.  A
failed guard falls through to the default arm, which produces the
wrong-number-of-arguments Error, looking the arity up with `.expect(...)`
(a panic for unregistered names).  Rust's `args[0]` / `args[1]` indexing
panics on out-of-bounds access (unreachable under the guards). -/
def call (function_name : String) (args : List Object) : ERes :=
  if function_name == "length" &&
     (some (args.length % 256) == CORE_REGISTRY.lookup function_name) then
    match args with
    | a0 :: _ => .ok (length_ a0)
    | [] => .panicked "index out of bounds"
  else if function_name == "first" &&
     (some (args.length % 256) == CORE_REGISTRY.lookup function_name) then
    match args with
    | a0 :: _ => .ok (first_ a0)
    | [] => .panicked "index out of bounds"
  else if function_name == "last" &&
     (some (args.length % 256) == CORE_REGISTRY.lookup function_name) then
    match args with
    | a0 :: _ => .ok (last_ a0)
    | [] => .panicked "index out of bounds"
  else if function_name == "rest" &&
     (some (args.length % 256) == CORE_REGISTRY.lookup function_name) then
    match args with
    | a0 :: _ => .ok (rest_ a0)
    | [] => .panicked "index out of bounds"
  else if function_name == "push" &&
     (some (args.length % 256) == CORE_REGISTRY.lookup function_name) then
    match args with
    | a0 :: a1 :: _ => .ok (push_ a0 a1)
    | _ => .panicked "index out of bounds"
  else
    match CORE_REGISTRY.lookup function_name with
    | some arity =>
      .ok (new_error ("wrong number of arguments: got=" ++ toString args.length ++
                      ", expected=" ++ toString arity))
    | none => .panicked "Cannot find function in CORE_REGISTRY, TO_GREP: 74392761423"

/-- The per-name implementation dispatch of funcs::call, for stating what
call does when an arm's guard passes. -/
def coreDispatch (function_name : String) (args : List Object) : ERes :=
  if function_name == "length" then
    match args with
    | a0 :: _ => .ok (length_ a0)
    | [] => .panicked "index out of bounds"
  else if function_name == "first" then
    match args with
    | a0 :: _ => .ok (first_ a0)
    | [] => .panicked "index out of bounds"
  else if function_name == "last" then
    match args with
    | a0 :: _ => .ok (last_ a0)
    | [] => .panicked "index out of bounds"
  else if function_name == "rest" then
    match args with
    | a0 :: _ => .ok (rest_ a0)
    | [] => .panicked "index out of bounds"
  else if function_name == "push" then
    match args with
    | a0 :: a1 :: _ => .ok (push_ a0 a1)
    | _ => .panicked "index out of bounds"
  else
    .panicked "not a core function"

-- ===== evaluation/evaluator.rs =====

/-- WrappedNode of evaluator.rs: the sum over Program, Statements, Expression. -/
inductive WrappedNode where
  | P (program : Program)
  | S (statement : Statements)
  | E (expression : Expression)

/-- The WN::E arm of evaluator::eval (lines 44-55): only IntegerLiteral is
handled; every other expression kind panics with a "don't how to handle ..."
message. -/
def evalE : Expression → ERes
  | .IntegerLiteral _ value => .ok (.Integer value)
  | .Identifier _ _ => .panicked "don't how to handle identifier"
  | .PrefixExpression _ _ _ => .panicked "don't how to handle prefix expression"
  | .InfixExpression _ _ _ _ => .panicked "don't how to handle infix expression"
  | .Boolean _ _ => .panicked "don't how to handle boolean"
  | .IfExpression _ => .panicked "don't how to handle if expression"
  | .FunctionLiteral _ => .panicked "don't how to handle function literal"
  | .CallExpression _ => .panicked "don't how to handle call expression"

/-- The WN::S arm of evaluator::eval (lines 39-43): expression statements are
evaluated; let and return statements panic. -/
def evalS : Statements → ERes
  | .ExpressionStatement s => evalE s.expression
  | .LetStatement _ => .panicked "don't know how to handle let statement"
  | .ReturnStatement _ => .panicked "don't know how to handle return statement"

/-- evaluator::eval_statements (lines 59-62):
`statements.into_iter().map(eval).last().unwrap()` evaluates every statement
in order (a panic in any of them aborts), yields the last statement's value,
and panics on the unwrap of None when the list is empty. -/
def eval_statements : List Statements → ERes
  | [] => .panicked "called `Option::unwrap()` on a `None` value"
  | [s] => evalS s
  | s :: s1 :: rest =>
    match evalS s with
    | .ok _ => eval_statements (s1 :: rest)
    | .panicked m => .panicked m

/-- evaluator::eval (lines 36-57): dispatch on the wrapped node. -/
def eval : WrappedNode → ERes
  | .P program => eval_statements program.statements
  | .S statement => evalS statement
  | .E expression => evalE expression

-- ===== helper lemmas =====

theorem hasInfixRule_ne_semicolon (op : String) (h : hasInfixRule op = true) :
    (op == token.SEMICOLON) = false := by
  simp [hasInfixRule] at h
  rcases h with ((((((h | h) | h) | h) | h) | h) | h) | h <;> subst h <;> decide

theorem hasInfixRule_pbt_pos (op : String) (h : hasInfixRule op = true) :
    0 < precedence_by_token_type op := by
  simp [hasInfixRule] at h
  rcases h with ((((((h | h) | h) | h) | h) | h) | h) | h <;> subst h <;> decide

theorem noSemicolonCur (fuel : Nat) : ∀ (st : PState),
    st.current_token.token_type ≠ token.SEMICOLON →
    st.peek_token.token_type ≠ token.SEMICOLON →
    (∀ t ∈ st.lexer, t.token_type ≠ token.SEMICOLON) →
    scanToSemicolonCur fuel st = none := by
  induction fuel with
  | zero => intro st _ _ _; rfl
  | succ n ih =>
    intro st h1 h2 h3
    have hb : (st.current_token.token_type == token.SEMICOLON) = false :=
      beq_eq_false_iff_ne.mpr h1
    simp only [scanToSemicolonCur, hb, Bool.false_eq_true, if_false]
    refine ih (nextToken st) h2 ?_ ?_
    · show (st.lexer.headD eofToken).token_type ≠ token.SEMICOLON
      cases hl : st.lexer with
      | nil => decide
      | cons a l =>
        have : a ∈ st.lexer := by rw [hl]; exact List.mem_cons_self a l
        simpa using h3 a this
    · intro t ht
      exact h3 t (List.mem_of_mem_tail ht)

theorem exprInt_step (n prec : Nat) (st : PState) (s : String) (v : Int)
    (hcur : st.current_token = ⟨token.INT, s⟩) (hv : parse_i32 s = some v) :
    parseExprCore (n+1) (.expr prec) st =
      parseExprCore n (.loop prec (.IntegerLiteral ⟨token.INT, s⟩ v)) st := by
  simp [parseExprCore, hcur, hasPrefixRule, parse_int_literal, hv,
        token.INT, token.IDENT, token.BANG, token.MINUS, token.TRUE, token.FALSE, token.LPAREN]

theorem loop_semi_step (n prec : Nat) (left : Expression) (st : PState)
    (h : st.peek_token.token_type = token.SEMICOLON) :
    parseExprCore (n+1) (.loop prec left) st = .ok left st := by
  simp [parseExprCore, h]

theorem loop_low_step (n prec : Nat) (left : Expression) (st : PState)
    (h : ¬ (prec < precedence_by_token_type st.peek_token.token_type)) :
    parseExprCore (n+1) (.loop prec left) st = .ok left st := by
  simp [parseExprCore, h, ite_self]

theorem loop_infix_step (n prec : Nat) (left : Expression) (st : PState) (op : String)
    (right : Expression) (st3 : PState)
    (hpeek : st.peek_token = ⟨op, op⟩)
    (hinf : hasInfixRule op = true)
    (hlt : prec < precedence_by_token_type op)
    (hright : parseExprCore n (.expr (precedence_by_token_type op)) (nextToken (nextToken st)) =
      .ok right st3) :
    parseExprCore (n+1) (.loop prec left) st =
      parseExprCore n (.loop prec (.InfixExpression ⟨op, op⟩ left op right)) st3 := by
  have hne : (op == token.SEMICOLON) = false := hasInfixRule_ne_semicolon op hinf
  simp [nextToken] at hright
  simp [parseExprCore, hpeek, hne, hlt, hinf, nextToken, hright]

/-- C7: infix operators of the same precedence level associate to the left.  For
every pair of registered infix operators with equal precedence and any three
integer literals, parsing `a OP1 b OP2 c ;` at LOWEST yields the left-nested
tree Infix(Infix(a, OP1, b), OP2, c): the strict `<` in the Pratt loop makes
the right-operand parse at the operator's own precedence stop before an
equal-precedence operator.  Stated for every sufficiently large fuel. -/
theorem C7_same_precedence_left_assoc (fuel : Nat) (s1 s2 s3 : String) (a b c : Int)
    (op1 op2 : String)
    (h1 : parse_i32 s1 = some a) (h2 : parse_i32 s2 = some b) (h3 : parse_i32 s3 = some c)
    (hop1 : hasInfixRule op1 = true) (hop2 : hasInfixRule op2 = true)
    (hpp : precedence_by_token_type op1 = precedence_by_token_type op2) :
    parse_expression (fuel+5)
      (Parser.new [⟨token.INT, s1⟩, ⟨op1, op1⟩, ⟨token.INT, s2⟩, ⟨op2, op2⟩, ⟨token.INT, s3⟩,
        ⟨token.SEMICOLON, ";"⟩]) token.LOWEST =
    PRes.ok
      (.InfixExpression ⟨op2, op2⟩
        (.InfixExpression ⟨op1, op1⟩ (.IntegerLiteral ⟨token.INT, s1⟩ a) op1
          (.IntegerLiteral ⟨token.INT, s2⟩ b))
        op2 (.IntegerLiteral ⟨token.INT, s3⟩ c))
      ⟨[], ⟨token.INT, s3⟩, ⟨token.SEMICOLON, ";"⟩, []⟩ := by
  have hpos1 : token.LOWEST < precedence_by_token_type op1 := hasInfixRule_pbt_pos op1 hop1
  have hpos2 : token.LOWEST < precedence_by_token_type op2 := hasInfixRule_pbt_pos op2 hop2
  have hrB : parseExprCore (fuel+3) (.expr (precedence_by_token_type op1))
      (⟨[⟨token.INT, s3⟩, ⟨token.SEMICOLON, ";"⟩], ⟨token.INT, s2⟩, ⟨op2, op2⟩, []⟩ : PState) =
      PRes.ok (.IntegerLiteral ⟨token.INT, s2⟩ b)
        ⟨[⟨token.INT, s3⟩, ⟨token.SEMICOLON, ";"⟩], ⟨token.INT, s2⟩, ⟨op2, op2⟩, []⟩ := by
    rw [show fuel + 3 = (fuel+2)+1 from rfl]
    rw [exprInt_step (fuel+2) _ _ s2 b rfl h2]
    rw [show fuel + 2 = (fuel+1)+1 from rfl]
    exact loop_low_step (fuel+1) _ _ _ (by simp [hpp])
  have hrC : parseExprCore (fuel+2) (.expr (precedence_by_token_type op2))
      (⟨[], ⟨token.INT, s3⟩, ⟨token.SEMICOLON, ";"⟩, []⟩ : PState) =
      PRes.ok (.IntegerLiteral ⟨token.INT, s3⟩ c)
        ⟨[], ⟨token.INT, s3⟩, ⟨token.SEMICOLON, ";"⟩, []⟩ := by
    rw [show fuel + 2 = (fuel+1)+1 from rfl]
    rw [exprInt_step (fuel+1) _ _ s3 c rfl h3]
    exact loop_semi_step fuel _ _ _ rfl
  show parseExprCore ((fuel+4)+1) (.expr token.LOWEST)
      (⟨[⟨token.INT, s2⟩, ⟨op2, op2⟩, ⟨token.INT, s3⟩, ⟨token.SEMICOLON, ";"⟩],
        ⟨token.INT, s1⟩, ⟨op1, op1⟩, []⟩ : PState) = _
  rw [exprInt_step (fuel+4) _ _ s1 a rfl h1]
  rw [show fuel + 4 = (fuel+3)+1 from rfl]
  rw [loop_infix_step (fuel+3) token.LOWEST _
        (⟨[⟨token.INT, s2⟩, ⟨op2, op2⟩, ⟨token.INT, s3⟩, ⟨token.SEMICOLON, ";"⟩],
          ⟨token.INT, s1⟩, ⟨op1, op1⟩, []⟩ : PState) op1 _ _ rfl hop1 hpos1 hrB]
  rw [show fuel + 3 = (fuel+2)+1 from rfl]
  rw [loop_infix_step (fuel+2) token.LOWEST _
        (⟨[⟨token.INT, s3⟩, ⟨token.SEMICOLON, ";"⟩], ⟨token.INT, s2⟩, ⟨op2, op2⟩, []⟩ : PState)
        op2 _ _ rfl hop2 hpos2 hrC]
  rw [show fuel + 2 = (fuel+1)+1 from rfl]
  exact loop_semi_step (fuel+1) _ _ _ rfl

/-- C2: counter-evidence for the termination claim.  On the token stream of
`let x = 5` with no semicolon (the lexer then yields EOF tokens forever),
parse_program runs out of every fuel: the semicolon scan inside
parse_let_statement never finds a SEMICOLON in the all-EOF tail, so the Rust
loop `while !(current == SEMICOLON) next_token()` never exits.  The source's
own TODO comment warns exactly of this hang. -/
theorem C2_parse_program_diverges_without_semicolon (fuel : Nat) :
    parse_program fuel (Parser.new [⟨token.LET, "let"⟩, ⟨token.IDENT, "x"⟩,
      ⟨token.ASSIGN, "="⟩, ⟨token.INT, "5"⟩]) = PRes.outOfFuel := by
  cases fuel with
  | zero => rfl
  | succ n =>
    have hscan : scanToSemicolonCur n
        (⟨[], ⟨"=", "="⟩, ⟨"INT", "5"⟩, []⟩ : PState) = none := by
      refine noSemicolonCur n _ (by decide) (by decide) ?_
      intro t ht
      simp at ht
    simp [parse_program, parse_program_loop, parse_statement, parse_let_statement,
          Parser.new, nextToken, peek_error, hscan, token.LET, token.EOF, token.IDENT,
          token.ASSIGN, token.SEMICOLON, token.INT]

/-- C1: evaluating the parser on the well-formed statement `let x = 5;` shows
that parse_let_statement yields a Let statement whose value field is the
placeholder string "dumb" — the right-hand side is skipped, never parsed at
LOWEST, contradicting the claim (the spec itself flags this as a bug in the
source). -/
theorem C1_let_value_is_placeholder :
    parse_program 10 (Parser.new [⟨token.LET, "let"⟩, ⟨token.IDENT, "x"⟩, ⟨token.ASSIGN, "="⟩,
      ⟨token.INT, "5"⟩, ⟨token.SEMICOLON, ";"⟩]) =
    PRes.ok ⟨[Statements.LetStatement ⟨⟨token.LET, "let"⟩, ⟨⟨token.IDENT, "x"⟩, "x"⟩, "dumb"⟩]⟩
      ⟨[], eofToken, eofToken, []⟩ := rfl

/-- C3: counter-evidence for the arithmetic claim.  Evaluating any program
whose single statement is an infix expression over two integer literals (the
AST of "a OP b" for OP in + - * /) panics with "don't how to handle infix
expression" instead of returning Integer(a OP b): evaluator.rs only handles
integer literals. -/
theorem C3_eval_infix_panics (stok optok ltok rtok : Token) (op : String) (a b : Int) :
    eval (WrappedNode.P ⟨[Statements.ExpressionStatement ⟨stok,
      Expression.InfixExpression optok (Expression.IntegerLiteral ltok a) op
        (Expression.IntegerLiteral rtok b)⟩]⟩) =
    ERes.panicked "don't how to handle infix expression" := rfl

/-- C4: counter-evidence for the empty-program half of the claim, plus the
last-statement half.  eval of a Program with no statements panics (the
`.last().unwrap()` of eval_statements unwraps None) instead of returning Nil;
for a two-statement program of integer literals the result is the last
statement's value, as claimed. -/
theorem C4_eval_program_empty_panics :
    eval (WrappedNode.P ⟨[]⟩) = ERes.panicked "called `Option::unwrap()` on a `None` value" ∧
    (∀ (t1 t2 : Token) (a b : Int),
      eval (WrappedNode.P ⟨[Statements.ExpressionStatement ⟨t1, Expression.IntegerLiteral t1 a⟩,
        Statements.ExpressionStatement ⟨t2, Expression.IntegerLiteral t2 b⟩]⟩) =
      ERes.ok (Object.Integer b)) :=
  ⟨rfl, fun _ _ _ _ => rfl⟩

/-- C5: counter-evidence for the never-aborts claim, at both cited places.
For input `=` (no registered prefix rule) the parser records the error and
then parse_expression_statement panics "I don't know how to parse `=`";
for input `( 1` (grouped expression missing its RPAREN)
parse_grouped_expressions panics instead of recording an error. -/
theorem C5_parser_aborts_on_malformed :
    parse_program 10 (Parser.new [⟨token.ASSIGN, "="⟩]) =
      PRes.panicked "I don't know how to parse `=`" ∧
    parse_program 10 (Parser.new [⟨token.LPAREN, "("⟩, ⟨token.INT, "1"⟩]) =
      PRes.panicked "I've expected `)`, but got EOF" := ⟨rfl, rfl⟩

/-- C6 counterexample: the PRECEDENCES table of parser.rs has no entry for
LPAREN or LBRACKET, so precedence lookup returns LOWEST for them — not CALL
and not INDEX as the claim states (LOWEST differs from both under the spec's
strictly ascending chain). -/
theorem C6_counterexample_paren_bracket_lowest :
    precedence_by_token_type token.LPAREN = token.LOWEST ∧
    precedence_by_token_type token.LBRACKET = token.LOWEST ∧
    token.LOWEST ≠ token.CALL ∧ token.LOWEST ≠ token.INDEX := by decide

/-- C6 amended: precedence lookup returns EQUALS for == and !=, LESSGREATER
for < and >, SUM for + and -, PRODUCT for * and /, and LOWEST for every other
token kind — including ( and [, which are unmapped — and the levels ascend
strictly in the order LOWEST < EQUALS < LESSGREATER < SUM < PRODUCT < PREFIX
< CALL < INDEX. -/
theorem C6_precedence_lookup_amended :
    (precedence_by_token_type token.EQ = token.EQUALS ∧
     precedence_by_token_type token.NOT_EQ = token.EQUALS ∧
     precedence_by_token_type token.LT = token.LESSGREATER ∧
     precedence_by_token_type token.GT = token.LESSGREATER ∧
     precedence_by_token_type token.PLUS = token.SUM ∧
     precedence_by_token_type token.MINUS = token.SUM ∧
     precedence_by_token_type token.ASTERISK = token.PRODUCT ∧
     precedence_by_token_type token.SLASH = token.PRODUCT) ∧
    (∀ tt : TokenType,
      tt ∉ [token.EQ, token.NOT_EQ, token.LT, token.GT, token.PLUS, token.MINUS,
            token.SLASH, token.ASTERISK] →
      precedence_by_token_type tt = token.LOWEST) ∧
    (token.LOWEST < token.EQUALS ∧ token.EQUALS < token.LESSGREATER ∧
     token.LESSGREATER < token.SUM ∧ token.SUM < token.PRODUCT ∧
     token.PRODUCT < token.PREFIX_LEVEL ∧ token.PREFIX_LEVEL < token.CALL ∧
     token.CALL < token.INDEX) := by
  refine ⟨by decide, ?_, by decide⟩
  intro tt h
  simp only [List.mem_cons, List.not_mem_nil, or_false, not_or] at h
  obtain ⟨e1, e2, e3, e4, e5, e6, e7, e8⟩ := h
  have b1 : (tt == token.EQ) = false := beq_eq_false_iff_ne.mpr e1
  have b2 : (tt == token.NOT_EQ) = false := beq_eq_false_iff_ne.mpr e2
  have b3 : (tt == token.LT) = false := beq_eq_false_iff_ne.mpr e3
  have b4 : (tt == token.GT) = false := beq_eq_false_iff_ne.mpr e4
  have b5 : (tt == token.PLUS) = false := beq_eq_false_iff_ne.mpr e5
  have b6 : (tt == token.MINUS) = false := beq_eq_false_iff_ne.mpr e6
  have b7 : (tt == token.SLASH) = false := beq_eq_false_iff_ne.mpr e7
  have b8 : (tt == token.ASTERISK) = false := beq_eq_false_iff_ne.mpr e8
  simp [precedence_by_token_type, PRECEDENCES, List.lookup, b1, b2, b3, b4, b5, b6, b7, b8]

/-- C6 witness: instantiating the unmapped-kind clause at LPAREN. -/
theorem C6_witness_unmapped_lowest : precedence_by_token_type token.LPAREN = token.LOWEST :=
  C6_precedence_lookup_amended.2.1 token.LPAREN (by decide)

set_option maxRecDepth 16384 in
/-- C8 counterexample: calling the registered built-in `length` with 257
arguments does NOT return the wrong-number-of-arguments Error although
257 differs from the registered arity 1: the source compares
`args.len() as u8`, and 257 truncates to 1, so the call dispatches to
length_ and returns Integer 0. -/
theorem C8_counterexample_truncated_count :
    call "length" (List.replicate 257 (Object.Array [])) = ERes.ok (Object.Integer 0) ∧
    (257 : Nat) ≠ 1 := ⟨rfl, by decide⟩

/-- C8 amended: for every registered built-in name, call(name, args) returns
Error "wrong number of arguments: got=N, expected=A" (N the untruncated
argument count, A the registered arity) exactly when the argument count
truncated to u8 (mod 256) differs from the arity, and otherwise dispatches to
the named implementation. -/
theorem C8_call_arity_mod256 (name : String) (arity : Nat) (args : List Object)
    (hreg : CORE_REGISTRY.lookup name = some arity) :
    (args.length % 256 = arity → call name args = coreDispatch name args) ∧
    (args.length % 256 ≠ arity →
      call name args = ERes.ok (new_error ("wrong number of arguments: got=" ++
        toString args.length ++ ", expected=" ++ toString arity))) := by
  have h5 : name = "length" ∨ name = "first" ∨ name = "last" ∨ name = "rest" ∨
      name = "push" := by
    by_contra hc
    push_neg at hc
    obtain ⟨n1, n2, n3, n4, n5⟩ := hc
    have b1 : (name == "length") = false := beq_eq_false_iff_ne.mpr n1
    have b2 : (name == "first") = false := beq_eq_false_iff_ne.mpr n2
    have b3 : (name == "last") = false := beq_eq_false_iff_ne.mpr n3
    have b4 : (name == "rest") = false := beq_eq_false_iff_ne.mpr n4
    have b5 : (name == "push") = false := beq_eq_false_iff_ne.mpr n5
    simp [CORE_REGISTRY, List.lookup, b1, b2, b3, b4, b5] at hreg
  rcases h5 with rfl | rfl | rfl | rfl | rfl
  · have harity : arity = 1 := by
      rw [show CORE_REGISTRY.lookup "length" = some 1 from rfl] at hreg
      exact (Option.some.inj hreg).symm
    subst harity
    constructor
    · intro h
      rcases args with _ | ⟨a0, rest⟩
      · simp at h
      · simp only [List.length_cons] at h
        simp [call, coreDispatch, CORE_REGISTRY, List.lookup, h]
    · intro h
      simp [call, CORE_REGISTRY, List.lookup, h]
  · have harity : arity = 1 := by
      rw [show CORE_REGISTRY.lookup "first" = some 1 from rfl] at hreg
      exact (Option.some.inj hreg).symm
    subst harity
    constructor
    · intro h
      rcases args with _ | ⟨a0, rest⟩
      · simp at h
      · simp only [List.length_cons] at h
        simp [call, coreDispatch, CORE_REGISTRY, List.lookup, h]
    · intro h
      simp [call, CORE_REGISTRY, List.lookup, h]
  · have harity : arity = 1 := by
      rw [show CORE_REGISTRY.lookup "last" = some 1 from rfl] at hreg
      exact (Option.some.inj hreg).symm
    subst harity
    constructor
    · intro h
      rcases args with _ | ⟨a0, rest⟩
      · simp at h
      · simp only [List.length_cons] at h
        simp [call, coreDispatch, CORE_REGISTRY, List.lookup, h]
    · intro h
      simp [call, CORE_REGISTRY, List.lookup, h]
  · have harity : arity = 1 := by
      rw [show CORE_REGISTRY.lookup "rest" = some 1 from rfl] at hreg
      exact (Option.some.inj hreg).symm
    subst harity
    constructor
    · intro h
      rcases args with _ | ⟨a0, rest⟩
      · simp at h
      · simp only [List.length_cons] at h
        simp [call, coreDispatch, CORE_REGISTRY, List.lookup, h]
    · intro h
      simp [call, CORE_REGISTRY, List.lookup, h]
  · have harity : arity = 2 := by
      rw [show CORE_REGISTRY.lookup "push" = some 2 from rfl] at hreg
      exact (Option.some.inj hreg).symm
    subst harity
    constructor
    · intro h
      rcases args with _ | ⟨a0, _ | ⟨a1, rest⟩⟩
      · simp at h
      · simp at h
      · simp only [List.length_cons] at h
        simp [call, coreDispatch, CORE_REGISTRY, List.lookup, h]
    · intro h
      simp [call, CORE_REGISTRY, List.lookup, h]

/-- C8 witness: a one-argument call of `length` dispatches. -/
theorem C8_witness_length_dispatch :
    call "length" [Object.Array []] = coreDispatch "length" [Object.Array []] :=
  (C8_call_arity_mod256 "length" 1 [Object.Array []] rfl).1 rfl

/-- C9: push on an Array returns a new Array whose elements are the original
elements followed by the new element; the original is untouched (the pure
embedding mirrors the source's clone), its element count is unchanged under
length_, the result has one element more, and a non-array first argument
yields the Error of funcs.rs. -/
theorem C9_push_appends (elements : List Object) (x : Object) :
    push_ (Object.Array elements) x = Object.Array (elements ++ [x]) ∧
    (elements ++ [x]).length = elements.length + 1 ∧
    length_ (Object.Array elements) = Object.Integer (i32ofNat elements.length) ∧
    length_ (Object.Array (elements ++ [x])) = Object.Integer (i32ofNat (elements.length + 1)) ∧
    (∀ o : Object, isArrayObject o = false →
      push_ o x = new_error ("argument to `push` must be array, got " ++ object_type o)) := by
  refine ⟨rfl, by simp, rfl, by simp [length_], ?_⟩
  intro o ho
  cases o <;> first | rfl | (exfalso; simp [isArrayObject] at ho)

/-- C9 witness: pushing 2 onto [1] gives [1, 2], and pushing onto Nil gives
the must-be-array Error. -/
theorem C9_witness_push_immutable :
    push_ (Object.Array [Object.Integer 1]) (Object.Integer 2) =
      Object.Array [Object.Integer 1, Object.Integer 2] ∧
    push_ Object.Nil (Object.Integer 2) =
      new_error "argument to `push` must be array, got NULL" :=
  ⟨(C9_push_appends [Object.Integer 1] (Object.Integer 2)).1,
   (C9_push_appends [] (Object.Integer 2)).2.2.2.2 Object.Nil rfl⟩

/-- C10: same_tag returns true exactly for two Objects of the same variant
when that variant is not CoreFunc; any two CoreFunc objects — the same object
twice included — give false, so same_tag is not reflexive. -/
theorem C10_same_tag_not_reflexive_on_corefunc :
    (∀ a b : Object, same_tag a b = ((a.tag == b.tag) && !(a.tag == ObjTag.coreFunc))) ∧
    same_tag (Object.CoreFunc "length" 1) (Object.CoreFunc "length" 1) = false := by
  refine ⟨?_, rfl⟩
  intro a b
  cases a <;> cases b <;> rfl

/-- C7 witness: `1 + 2 + 3 ;` parses as (1 + 2) + 3. -/
theorem C7_witness_plus_chain :
    parse_expression 5
      (Parser.new [⟨token.INT, "1"⟩, ⟨token.PLUS, "+"⟩, ⟨token.INT, "2"⟩, ⟨token.PLUS, "+"⟩,
        ⟨token.INT, "3"⟩, ⟨token.SEMICOLON, ";"⟩]) token.LOWEST =
    PRes.ok
      (.InfixExpression ⟨token.PLUS, "+"⟩
        (.InfixExpression ⟨token.PLUS, "+"⟩ (.IntegerLiteral ⟨token.INT, "1"⟩ 1) "+"
          (.IntegerLiteral ⟨token.INT, "2"⟩ 2))
        "+" (.IntegerLiteral ⟨token.INT, "3"⟩ 3))
      ⟨[], ⟨token.INT, "3"⟩, ⟨token.SEMICOLON, ";"⟩, []⟩ :=
  C7_same_precedence_left_assoc 0 "1" "2" "3" 1 2 3 "+" "+" rfl rfl rfl rfl rfl rfl
